import Mathlib

/-!
Verification development for `src/notion_template_generator.py`.

The file embeds the program shallowly:

* `Json` models the dictionary/list/string/boolean values the script builds
  as Notion block payloads.
* The block constructors (`create_heading`, `create_todo`, `create_toggle`,
  `create_paragraph`, `create_bulleted_list`, `create_numbered_list`,
  `create_dividing_line`) and `build_complete_template` are translated
  directly from the source, lines 115-404.
* Network responses are inputs of the embedding: a `Response` is the parsed
  reply to one HTTP call (status code plus the JSON-object body).  The
  embedding's domain is runs in which every reply body parses as a JSON
  object, matching the script's own use of `response.json()` and `.get`.
* `create_page` / `append_blocks` are split into their payload-building part
  (`create_page_payload`, `append_blocks_payload`, source lines 50-62 and
  81-82) and their result part (status-200 check, lines 65-68 and 85-88).
* `generate_template_core` embeds the body of `generate_template`
  (source lines 414-462) with the item sequence `all_children` abstracted as
  a parameter; `generate_template` instantiates it with
  `build_complete_template`, exactly as line 415 does.  It returns the
  boolean the Python function returns, together with the trace of outbound
  calls it issues and the per-append-slice success checks of line 449.
-/

namespace NotionGen

/-- JSON-like values: the shape of the Notion block dictionaries the script
builds.  Objects are association lists of string keys. -/
inductive Json where
  | str (s : String)
  | bool (b : Bool)
  | arr (xs : List Json)
  | obj (fields : List (String × Json))

/-- Python `range(0, stop, step)` for `step > 0`: the `⌈stop/step⌉` numbers
`0, step, 2*step, ...` strictly below `stop`. -/
def pyRange (stop step : Nat) : List Nat :=
  List.range' 0 ((stop + (step - 1)) / step) step

/-- The chunks produced by the loop
`for i in range(0, len(remaining), 100): chunk = remaining[i:i+100]`
of `generate_template` (source lines 444-446). -/
def slices100 (l : List α) : List (List α) :=
  (pyRange l.length 100).map (fun i => (l.drop i).take 100)

/-- Recursive characterisation of 100-chunking, used to reason about
`slices100` by induction. -/
def chunksRec : List α → List (List α)
  | [] => []
  | a :: l => ((a :: l).take 100) :: chunksRec ((a :: l).drop 100)
termination_by l => l.length
decreasing_by
  simp only [List.length_drop, List.length_cons]
  omega

/-- The generator's configuration state (source lines 22-37): the credential
and the parent page id.  `build_complete_template` reads neither. -/
structure Generator where
  api_key : String
  parent_page_id : String

/-- Embeds `create_heading` (source lines 115-124). -/
def create_heading (level : Nat) (content : String) : Json :=
  let heading_type := "heading_" ++ toString level
  Json.obj [("object", Json.str "block"),
            ("type", Json.str heading_type),
            (heading_type, Json.obj [("rich_text",
              Json.arr [Json.obj [("text", Json.obj [("content", Json.str content)])]])])]

/-- Embeds `create_todo` (source lines 126-135).  The Python `checked`
parameter defaults to `False`; call sites pass the default explicitly here. -/
def create_todo (content : String) (checked : Bool) : Json :=
  Json.obj [("object", Json.str "block"),
            ("type", Json.str "to_do"),
            ("to_do", Json.obj [("rich_text",
              Json.arr [Json.obj [("text", Json.obj [("content", Json.str content)])]]),
              ("checked", Json.bool checked)])]

/-- Embeds `create_toggle` (source lines 137-148): the `children` key is added
to the inner dict only when the argument is truthy (neither `None` nor `[]`). -/
def create_toggle (content : String) (children : Option (List Json)) : Json :=
  let rich := [("rich_text",
    Json.arr [Json.obj [("text", Json.obj [("content", Json.str content)])]])]
  let inner :=
    match children with
    | some cs => if cs.isEmpty then rich else rich ++ [("children", Json.arr cs)]
    | none => rich
  Json.obj [("object", Json.str "block"),
            ("type", Json.str "toggle"),
            ("toggle", Json.obj inner)]

/-- Embeds `create_paragraph` (source lines 150-158). -/
def create_paragraph (content : String) : Json :=
  Json.obj [("object", Json.str "block"),
            ("type", Json.str "paragraph"),
            ("paragraph", Json.obj [("rich_text",
              Json.arr [Json.obj [("text", Json.obj [("content", Json.str content)])]])])]

/-- Embeds `create_bulleted_list` (source lines 160-171). -/
def create_bulleted_list (items : List String) : List Json :=
  items.map (fun item =>
    Json.obj [("object", Json.str "block"),
              ("type", Json.str "bulleted_list_item"),
              ("bulleted_list_item", Json.obj [("rich_text",
                Json.arr [Json.obj [("text", Json.obj [("content", Json.str item)])]])])])

/-- Embeds `create_numbered_list` (source lines 173-184). -/
def create_numbered_list (items : List String) : List Json :=
  items.map (fun item =>
    Json.obj [("object", Json.str "block"),
              ("type", Json.str "numbered_list_item"),
              ("numbered_list_item", Json.obj [("rich_text",
                Json.arr [Json.obj [("text", Json.obj [("content", Json.str item)])]])])])

/-- Embeds `create_dividing_line` (source lines 186-192). -/
def create_dividing_line : Json :=
  Json.obj [("object", Json.str "block"),
            ("type", Json.str "divider"),
            ("divider", Json.obj [])]

/-- Embeds `build_complete_template` (source lines 194-404): the full ordered
block sequence, with each `children.append` / `children.extend` / `for` loop
translated in order. -/
def build_complete_template (g : Generator) : List Json :=
  let daily_habits := ["Morning routine", "Exercise / Physical activity",
    "Read for 30 minutes", "Meditation / Mindfulness", "Healthy meals",
    "Evening routine", "Journal entry", "Gratitude practice"]
  let weekly_habits := ["Deep work session", "Social connection",
    "Learning / Skill development", "Rest day / Self-care", "Review and plan"]
  let reflection_questions := ["What were my biggest wins this week?",
    "What challenges did I face?", "What did I learn?", "What am I grateful for?",
    "How did I feel overall?"]
  let want_to_read := ["📚 [Book Title] by [Author] - [Why you want to read it]",
    "📚 [Book Title] by [Author] - [Why you want to read it]",
    "📚 [Book Title] by [Author] - [Why you want to read it]"]
  let completed_books := ["✅ [Book Title] by [Author] - Finished: [Date]",
    "Rating: ⭐⭐⭐⭐⭐", "Key Takeaways: [Your main learnings]"]
  let upcoming_deadlines := ["[Assignment/Exam Name] - Due: [Date] - [Course]",
    "[Assignment/Exam Name] - Due: [Date] - [Course]",
    "[Assignment/Exam Name] - Due: [Date] - [Course]"]
  let study_session := ["Date: [Date]", "Duration: [Hours]",
    "Subject/Topic: [What you studied]", "Notes: [Key learnings or concepts]"]
  [create_paragraph "Welcome to your Life Design Dashboard! ✨",
   create_paragraph "This template helps you track habits, set goals, plan your week, and organize your reading.",
   create_dividing_line,
   create_heading 1 "The Ultimate Habit Tracker",
   create_paragraph "Track your daily habits and build consistency. Check off each habit as you complete it.",
   create_paragraph "",
   create_heading 2 "Daily Habits"]
  ++ daily_habits.map (fun habit => create_todo habit false)
  ++ [create_paragraph "",
      create_paragraph "Weekly Habits"]
  ++ weekly_habits.map (fun habit => create_todo habit false)
  ++ [create_paragraph "",
      create_paragraph "💡 Tip: Focus on consistency over perfection. Track what matters most to you.",
      create_dividing_line,
      create_heading 1 "The Ultimate Goal Tracker",
      create_paragraph "Set meaningful goals and track your progress. Break down big goals into actionable steps.",
      create_paragraph "",
      create_heading 2 "Long-term Goals (3-12 months)",
      create_paragraph "Goal: [Describe your long-term goal]",
      create_paragraph "Deadline: [Set your target date]",
      create_paragraph "Milestones:"]
  ++ create_bulleted_list ["[First milestone]", "[Second milestone]", "[Third milestone]"]
  ++ [create_paragraph "",
      create_heading 2 "Short-term Goals (1-3 months)",
      create_paragraph "Goal: [Describe your short-term goal]",
      create_paragraph "Actions:"]
  ++ create_bulleted_list ["[Action item 1]", "[Action item 2]", "[Action item 3]"]
  ++ [create_paragraph "",
      create_heading 2 "This Month\x27s Focus",
      create_todo "Priority 1: [Your main focus for this month]" false,
      create_todo "Priority 2: [Secondary focus]" false,
      create_todo "Priority 3: [Third focus]" false,
      create_paragraph "",
      create_paragraph "Progress Notes:",
      create_paragraph "Track your wins, challenges, and learnings here...",
      create_dividing_line,
      create_heading 1 "My Weekly Review",
      create_paragraph "Use this section to reflect on your week and plan ahead.",
      create_paragraph "",
      create_heading 2 "Week of [Date Range]",
      create_paragraph "",
      create_heading 3 "Reflection"]
  ++ (reflection_questions.map (fun question =>
        [create_paragraph question, create_paragraph ""])).flatten
  ++ [create_heading 3 "Planning",
      create_paragraph "Top 3 priorities for next week:",
      create_todo "Priority 1: [Your main focus]" false,
      create_todo "Priority 2: [Secondary focus]" false,
      create_todo "Priority 3: [Third focus]" false,
      create_paragraph "",
      create_paragraph "Key events & deadlines:"]
  ++ create_bulleted_list ["[Add important dates and events]"]
  ++ [create_paragraph "",
      create_paragraph "Notes for next week:",
      create_paragraph "...",
      create_dividing_line,
      create_heading 1 "Bookshelf Tracker",
      create_paragraph "Keep track of all your books in one place - what you\x27re reading, want to read, and have completed.",
      create_paragraph "",
      create_heading 2 "Currently Reading",
      create_toggle "📖 [Book Title] by [Author]"
        (some [create_paragraph "Progress: [Current page/chapter]",
               create_paragraph "Started: [Date]",
               create_paragraph "Notes: [Your thoughts and insights]"]),
      create_paragraph "",
      create_heading 2 "Want to Read"]
  ++ create_bulleted_list want_to_read
  ++ [create_paragraph "",
      create_heading 2 "Completed"]
  ++ completed_books.map (fun item => create_paragraph item)
  ++ [create_paragraph "",
      create_paragraph "💡 Tip: Use this tracker to build your reading habit and remember key insights from books you\x27ve read.",
      create_dividing_line,
      create_heading 1 "Student Tracker",
      create_paragraph "Organize your academic life - track courses, assignments, deadlines, and study sessions.",
      create_paragraph "",
      create_heading 2 "Current Courses",
      create_toggle "📚 [Course Name]"
        (some [create_paragraph "Instructor: [Professor Name]",
               create_paragraph "Schedule: [Days/Times]",
               create_paragraph "Credits: [Number]",
               create_paragraph "",
               create_paragraph "Assignments:",
               create_todo "[Assignment 1] - Due: [Date]" false,
               create_todo "[Assignment 2] - Due: [Date]" false,
               create_paragraph "",
               create_paragraph "Notes: [Your notes about the course]"]),
      create_paragraph "",
      create_heading 2 "Upcoming Deadlines"]
  ++ create_bulleted_list upcoming_deadlines
  ++ [create_paragraph "",
      create_heading 2 "Study Sessions",
      create_paragraph "Track your study time and topics:"]
  ++ study_session.map (fun item => create_paragraph item)
  ++ [create_paragraph "",
      create_heading 2 "Grades & Progress",
      create_paragraph "Course: [Course Name]",
      create_paragraph "Current Grade: [Grade/Percentage]",
      create_paragraph "Target Grade: [Your goal]",
      create_paragraph "",
      create_paragraph "💡 Tip: Update this regularly to stay on top of your academic goals and track your progress."]

/-- Parsed HTTP reply used by the embedding: status code plus the JSON-object
body that `response.json()` returns for that call. -/
structure Response where
  status : Nat
  body : List (String × Json)

/-- Truthiness the script applies to a parsed JSON-object body
(`not response_data` / `not append_data`): a Python dict is falsy iff empty. -/
def bodyFalsy (b : List (String × Json)) : Bool := b.isEmpty

/-- Result part of `create_page` (source lines 64-68): the parsed body when
the status is 200, otherwise `None`. -/
def create_page_result (resp : Response) : Option (List (String × Json)) :=
  if resp.status = 200 then some resp.body else none

/-- Result part of `append_blocks` (source lines 84-88): the parsed body when
the status is 200, otherwise `None`. -/
def append_blocks_result (resp : Response) : Option (List (String × Json)) :=
  if resp.status = 200 then some resp.body else none

/-- Request payload built by `create_page` (source lines 50-62): the base
payload, plus a `children` field capped at the first 100 items when the
`children` argument is truthy (neither `None` nor the empty list). -/
def create_page_payload (g : Generator) (title : String)
    (children : Option (List Json)) : List (String × Json) :=
  let payload := [("parent", Json.obj [("page_id", Json.str g.parent_page_id)]),
                  ("properties", Json.obj [("title",
                    Json.obj [("title", Json.arr [Json.obj [("text",
                      Json.obj [("content", Json.str title)])]])])])]
  match children with
  | some cs => if cs.isEmpty then payload
               else payload ++ [("children", Json.arr (cs.take 100))]
  | none => payload

/-- Request payload built by `append_blocks` (source lines 81-82): the
children capped at the first 100 items. -/
def append_blocks_payload (children : List Json) : List (String × Json) :=
  [("children", Json.arr (children.take 100))]

/-- Number of content items an outbound payload carries in its `children`
field (zero when the field is absent). -/
def payload_child_count (p : List (String × Json)) : Nat :=
  match p.lookup "children" with
  | some (Json.arr xs) => xs.length
  | _ => 0

/-- One outbound HTTP call of the uploader, recorded with the arguments the
script passes: title and head slice for the create call (source line 420),
extracted page id and chunk for each append call (source line 447). -/
inductive Call where
  | create (title : String) (children : List Json)
  | append (page_id : Option Json) (children : List Json)

/-- Outcome of one run of `generate_template`: the boolean the function
returns, the ordered trace of outbound calls, and the success check of
source line 449 for each append slice in order. -/
structure RunResult where
  success : Bool
  calls : List Call
  sliceOk : List Bool

/-- Success of one append slice as checked on source line 449: truthy
`append_data` and status 200. -/
def appendOk (resp : Response) : Bool :=
  match append_blocks_result resp with
  | none => false
  | some body => !bodyFalsy body && resp.status == 200

/-- Embeds the body of `generate_template` (source lines 414-462), with the
assembled `all_children` sequence abstracted as a parameter.  `createResp` is
the reply to the create call and `appendResp k` the reply to the `k`-th
append call.  The replies only feed the logging checks; the boolean returned
on line 462 is `True` on every path past the create check. -/
def generate_template_core (all_children : List Json) (createResp : Response)
    (appendResp : Nat → Response) : RunResult :=
  let first_chunk := all_children.take 100
  let cCall := Call.create "Sarah\x27s Life Design Dashboard" first_chunk
  match create_page_result createResp with
  | none => { success := false, calls := [cCall], sliceOk := [] }
  | some response_data =>
    if bodyFalsy response_data || createResp.status != 200 then
      { success := false, calls := [cCall], sliceOk := [] }
    else
      let page_id := response_data.lookup "id"
      let remaining := all_children.drop 100
      let cs := slices100 remaining
      { success := true,
        calls := cCall :: cs.map (fun chunk => Call.append page_id chunk),
        sliceOk := (List.range cs.length).map (fun k => appendOk (appendResp k)) }

/-- Embeds `generate_template` as the script runs it: the uploaded sequence is
the one assembled by `build_complete_template` (source line 415). -/
def generate_template (g : Generator) (createResp : Response)
    (appendResp : Nat → Response) : RunResult :=
  generate_template_core (build_complete_template g) createResp appendResp

/-- The children argument of an append call, `none` for a create call. -/
def Call.appendChildren : Call → Option (List Json)
  | .append _ cs => some cs
  | .create _ _ => none

/-- The children argument of a create call, `none` for an append call. -/
def Call.createChildren : Call → Option (List Json)
  | .create _ cs => some cs
  | .append _ _ => none

/-- The chunks passed to append calls, in call order. -/
def appendArgs (calls : List Call) : List (List Json) :=
  calls.filterMap Call.appendChildren

/-- The head slices passed to create calls, in call order. -/
def createArgs (calls : List Call) : List (List Json) :=
  calls.filterMap Call.createChildren

/-- The create-success condition of source line 425, on the reply: status 200
and a truthy parsed body. -/
def createOk (resp : Response) : Prop :=
  resp.status = 200 ∧ resp.body ≠ []

theorem chunksRec_nil : chunksRec ([] : List α) = [] := by
  rw [chunksRec.eq_def]

theorem chunksRec_cons (l : List α) (h : l ≠ []) :
    chunksRec l = l.take 100 :: chunksRec (l.drop 100) := by
  cases l with
  | nil => exact absurd rfl h
  | cons a l => rw [chunksRec.eq_def]

theorem chunksRec_eq_nil_iff (l : List α) : chunksRec l = [] ↔ l = [] := by
  constructor
  · intro hc
    by_contra h
    rw [chunksRec_cons l h] at hc
    exact List.cons_ne_nil _ _ hc
  · intro h
    subst h
    exact chunksRec_nil

theorem slices100_nil : slices100 ([] : List α) = [] := by
  simp [slices100, pyRange]

theorem slices100_cons (l : List α) (h : l ≠ []) :
    slices100 l = l.take 100 :: slices100 (l.drop 100) := by
  have hpos : 0 < l.length := List.length_pos.mpr h
  have hshift : ∀ m : Nat,
      (List.range' 100 m 100).map (fun i => (l.drop i).take 100)
        = (List.range' 0 m 100).map (fun i => ((l.drop 100).drop i).take 100) := by
    intro m
    have hr : List.range' 100 m 100 = List.map (100 + ·) (List.range' 0 m 100) := by
      have := List.map_add_range' 100 0 m 100
      rw [Nat.add_zero] at this
      exact this.symm
    rw [hr, List.map_map]
    apply List.map_congr_left
    intro i _
    simp only [Function.comp_apply]
    rw [List.drop_drop]
  have hk : (l.length + (100 - 1)) / 100 = (((l.drop 100).length + (100 - 1)) / 100) + 1 := by
    simp only [List.length_drop]
    omega
  show (List.range' 0 ((l.length + (100 - 1)) / 100) 100).map (fun i => (l.drop i).take 100)
      = l.take 100 :: (List.range' 0 (((l.drop 100).length + (100 - 1)) / 100) 100).map
          (fun i => ((l.drop 100).drop i).take 100)
  rw [hk, List.range'_succ]
  simp only [List.map_cons, List.drop_zero, Nat.zero_add]
  rw [hshift]

theorem slices100_eq_chunksRec (l : List α) : slices100 l = chunksRec l := by
  have H : ∀ n (l : List α), l.length ≤ n → slices100 l = chunksRec l := by
    intro n
    induction n with
    | zero =>
      intro l hl
      have : l = [] := List.eq_nil_of_length_eq_zero (by omega)
      subst this
      rw [slices100_nil, chunksRec_nil]
    | succ n ih =>
      intro l hl
      by_cases h : l = []
      · subst h
        rw [slices100_nil, chunksRec_nil]
      · have hpos : 0 < l.length := List.length_pos.mpr h
        rw [slices100_cons l h, chunksRec_cons l h]
        congr 1
        exact ih (l.drop 100) (by simp only [List.length_drop]; omega)
  exact H l.length l le_rfl

theorem chunksRec_flatten (l : List α) : (chunksRec l).flatten = l := by
  have H : ∀ n (l : List α), l.length ≤ n → (chunksRec l).flatten = l := by
    intro n
    induction n with
    | zero =>
      intro l hl
      have : l = [] := List.eq_nil_of_length_eq_zero (by omega)
      subst this
      rw [chunksRec_nil]
      rfl
    | succ n ih =>
      intro l hl
      by_cases h : l = []
      · subst h
        rw [chunksRec_nil]
        rfl
      · have hpos : 0 < l.length := List.length_pos.mpr h
        rw [chunksRec_cons l h, List.flatten_cons]
        rw [ih (l.drop 100) (by simp only [List.length_drop]; omega)]
        exact List.take_append_drop 100 l
  exact H l.length l le_rfl

theorem chunksRec_length (l : List α) :
    (chunksRec l).length = (l.length + 99) / 100 := by
  have H : ∀ n (l : List α), l.length ≤ n → (chunksRec l).length = (l.length + 99) / 100 := by
    intro n
    induction n with
    | zero =>
      intro l hl
      have : l = [] := List.eq_nil_of_length_eq_zero (by omega)
      subst this
      rw [chunksRec_nil]
      simp
    | succ n ih =>
      intro l hl
      by_cases h : l = []
      · subst h
        rw [chunksRec_nil]
        simp
      · have hpos : 0 < l.length := List.length_pos.mpr h
        rw [chunksRec_cons l h]
        simp only [List.length_cons]
        rw [ih (l.drop 100) (by simp only [List.length_drop]; omega)]
        simp only [List.length_drop]
        omega
  exact H l.length l le_rfl

theorem chunksRec_mem_length {l : List α} {c : List α} (hc : c ∈ chunksRec l) :
    c.length ≤ 100 := by
  have H : ∀ n (l : List α), l.length ≤ n → ∀ c, c ∈ chunksRec l → c.length ≤ 100 := by
    intro n
    induction n with
    | zero =>
      intro l hl c hc
      have : l = [] := List.eq_nil_of_length_eq_zero (by omega)
      subst this
      rw [chunksRec_nil] at hc
      exact absurd hc (List.not_mem_nil c)
    | succ n ih =>
      intro l hl c hc
      by_cases h : l = []
      · subst h
        rw [chunksRec_nil] at hc
        exact absurd hc (List.not_mem_nil c)
      · have hpos : 0 < l.length := List.length_pos.mpr h
        rw [chunksRec_cons l h] at hc
        rcases List.mem_cons.mp hc with h1 | h2
        · subst h1
          exact List.length_take_le 100 l
        · exact ih (l.drop 100) (by simp only [List.length_drop]; omega) c h2
  exact H l.length l le_rfl c hc

theorem chunksRec_getLast? {l : List α} {c : List α}
    (hc : (chunksRec l).getLast? = some c) :
    c.length = if l.length % 100 = 0 then 100 else l.length % 100 := by
  have H : ∀ n (l : List α), l.length ≤ n → ∀ c, (chunksRec l).getLast? = some c →
      c.length = if l.length % 100 = 0 then 100 else l.length % 100 := by
    intro n
    induction n with
    | zero =>
      intro l hl c hc
      have : l = [] := List.eq_nil_of_length_eq_zero (by omega)
      subst this
      rw [chunksRec_nil] at hc
      simp at hc
    | succ n ih =>
      intro l hl c hc
      by_cases h : l = []
      · subst h
        rw [chunksRec_nil] at hc
        simp at hc
      · have hpos : 0 < l.length := List.length_pos.mpr h
        rw [chunksRec_cons l h] at hc
        by_cases hrest : l.drop 100 = []
        · have hle : l.length ≤ 100 := by
            have h1 : (l.drop 100).length = 0 := by rw [hrest]; rfl
            rw [List.length_drop] at h1
            omega
          rw [(chunksRec_eq_nil_iff (l.drop 100)).mpr hrest] at hc
          simp only [List.getLast?_singleton, Option.some.injEq] at hc
          subst hc
          rw [List.length_take]
          split
          · omega
          · omega
        · have hgt : 100 < l.length := by
            have h1 : 0 < (l.drop 100).length := List.length_pos.mpr hrest
            rw [List.length_drop] at h1
            omega
          obtain ⟨c', cs', heq⟩ : ∃ c' cs', chunksRec (l.drop 100) = c' :: cs' := by
            rcases hx : chunksRec (l.drop 100) with _ | ⟨c', cs'⟩
            · exact absurd ((chunksRec_eq_nil_iff _).mp hx) hrest
            · exact ⟨c', cs', rfl⟩
          rw [heq, List.getLast?_cons_cons, ← heq] at hc
          have hres := ih (l.drop 100) (by simp only [List.length_drop]; omega) c hc
          rw [List.length_drop] at hres
          rw [hres]
          have hmod : (l.length - 100) % 100 = l.length % 100 := by omega
          rw [hmod]
  exact H l.length l le_rfl c hc

theorem not_createOk_iff (r : Response) :
    ¬createOk r ↔ (r.status ≠ 200 ∨ r.body = []) := by
  unfold createOk
  tauto

theorem bodyFalsy_eq_false {b : List (String × Json)} (h : b ≠ []) :
    bodyFalsy b = false := by
  unfold bodyFalsy
  exact List.isEmpty_eq_false.mpr h

/-- The run of `generate_template_core` when the create call fails the check
of source line 425: the job returns `False` after the single create call. -/
theorem core_of_createFail (items : List Json) (cr : Response) (f : Nat → Response)
    (h : cr.status ≠ 200 ∨ cr.body = []) :
    generate_template_core items cr f =
      { success := false,
        calls := [Call.create "Sarah\x27s Life Design Dashboard" (items.take 100)],
        sliceOk := [] } := by
  rcases h with h | h
  · unfold generate_template_core create_page_result
    rw [if_neg h]
  · unfold generate_template_core create_page_result
    by_cases h200 : cr.status = 200
    · rw [if_pos h200]
      simp only [h, bodyFalsy, List.isEmpty_nil, Bool.true_or, if_true]
    · rw [if_neg h200]

/-- The run of `generate_template_core` when the create call passes the check
of source line 425: the job issues the create call, then one append call per
100-chunk of the tail, records the per-slice checks, and returns `True`. -/
theorem core_of_createOk (items : List Json) (cr : Response) (f : Nat → Response)
    (h : createOk cr) :
    generate_template_core items cr f =
      { success := true,
        calls := Call.create "Sarah\x27s Life Design Dashboard" (items.take 100) ::
          (slices100 (items.drop 100)).map
            (fun chunk => Call.append (cr.body.lookup "id") chunk),
        sliceOk := (List.range (slices100 (items.drop 100)).length).map
          (fun k => appendOk (f k)) } := by
  obtain ⟨h200, hne⟩ := h
  unfold generate_template_core create_page_result
  rw [if_pos h200]
  simp only [bodyFalsy_eq_false hne, h200, bne_self_eq_false, Bool.or_false,
    Bool.false_eq_true, if_false]

theorem appendArgs_create_cons (t : String) (ch : List Json) (pid : Option Json)
    (cs : List (List Json)) :
    appendArgs (Call.create t ch :: cs.map (fun c => Call.append pid c)) = cs := by
  unfold appendArgs
  have h0 : Call.appendChildren (Call.create t ch) = none := rfl
  rw [List.filterMap_cons_none h0, List.filterMap_map]
  have h1 : (Call.appendChildren ∘ fun c => Call.append pid c) = some := by
    funext c
    rfl
  rw [h1, List.filterMap_some]

theorem createArgs_create_cons (t : String) (ch : List Json) (pid : Option Json)
    (cs : List (List Json)) :
    createArgs (Call.create t ch :: cs.map (fun c => Call.append pid c)) = [ch] := by
  unfold createArgs
  have h0 : Call.createChildren (Call.create t ch) = some ch := rfl
  rw [List.filterMap_cons_some h0, List.filterMap_map]
  have h1 : (Call.createChildren ∘ fun c => Call.append pid c) = fun _ => none := by
    funext c
    rfl
  rw [h1, List.filterMap_eq_nil_iff.mpr (fun c _ => rfl)]

/-- C1: the claim states the returned success flag is true only if the create
call succeeded AND every append slice succeeded, with the container id still
carried in the result.  The code contradicts this: on the run below the
create call succeeds, the single append slice fails its line-449 check
(`sliceOk = [false]`), yet `generate_template` still returns `True`
(source line 462), and the returned value is a bare boolean. -/
theorem C1_counterexample :
    (generate_template_core (List.replicate 101 (Json.str "x"))
        { status := 200, body := [("id", Json.str "page-1")] }
        (fun _ => { status := 400, body := [] })).success = true
    ∧ (generate_template_core (List.replicate 101 (Json.str "x"))
        { status := 200, body := [("id", Json.str "page-1")] }
        (fun _ => { status := 400, body := [] })).sliceOk = [false] := by
  constructor
  · rfl
  · rfl

/-- C1 (amended): the overall flag returned by `generate_template` is true
iff the create call succeeds (status 200 with a truthy parsed body); append
slice failures are only logged and never turn the flag false, and the
returned value is the bare flag, carrying no container identifier. -/
theorem C1_success_iff_createOk (items : List Json) (cr : Response)
    (f : Nat → Response) :
    (generate_template_core items cr f).success = true ↔ createOk cr := by
  constructor
  · intro h
    by_contra hn
    rw [core_of_createFail items cr f ((not_createOk_iff cr).mp hn)] at h
    exact Bool.false_ne_true h
  · intro h
    rw [core_of_createOk items cr f h]

/-- C2: if the create call fails (non-200 status, or a parsed body that is
falsy/missing), the job makes zero append calls and returns a failure; no
container identifier is ever extracted (the result is the bare `False`). -/
theorem C2_create_failure_aborts (items : List Json) (cr : Response)
    (f : Nat → Response) (h : cr.status ≠ 200 ∨ cr.body = []) :
    (generate_template_core items cr f).success = false
    ∧ appendArgs (generate_template_core items cr f).calls = [] := by
  rw [core_of_createFail items cr f h]
  exact ⟨rfl, rfl⟩

/-- C2 witness: a concrete 404 create reply on a 250-item input. -/
theorem C2_witness :
    ((404 : Nat) ≠ 200 ∨ ([("msg", Json.str "not found")] : List (String × Json)) = [])
    ∧ ((generate_template_core (List.replicate 250 (Json.str "x"))
          { status := 404, body := [("msg", Json.str "not found")] }
          (fun _ => { status := 200, body := [("ok", Json.bool true)] })).success = false
       ∧ appendArgs (generate_template_core (List.replicate 250 (Json.str "x"))
          { status := 404, body := [("msg", Json.str "not found")] }
          (fun _ => { status := 200, body := [("ok", Json.bool true)] })).calls = []) :=
  ⟨Or.inl (by decide),
   C2_create_failure_aborts (List.replicate 250 (Json.str "x"))
     { status := 404, body := [("msg", Json.str "not found")] }
     (fun _ => { status := 200, body := [("ok", Json.bool true)] })
     (Or.inl (by decide))⟩

/-- C3: once the create call succeeds, the call trace is fixed independently
of the append replies `f`: every tail chunk gets its append call, so a
failure on slice `k` never suppresses the calls for slices `k+1, k+2, ...`
(the loop of source lines 445-457 never breaks). -/
theorem C3_append_failure_does_not_abort (items : List Json) (cr : Response)
    (f : Nat → Response) (h : createOk cr) :
    (generate_template_core items cr f).calls =
      Call.create "Sarah\x27s Life Design Dashboard" (items.take 100) ::
        (slices100 (items.drop 100)).map
          (fun chunk => Call.append (cr.body.lookup "id") chunk) := by
  rw [core_of_createOk items cr f h]

set_option maxRecDepth 8000 in
/-- C3 witness: N = 250 with a forced failure on the first append reply; the
trace still contains the create call and both append calls. -/
theorem C3_witness :
    createOk { status := 200, body := [("id", Json.str "p")] }
    ∧ ((generate_template_core (List.replicate 250 (Json.str "b"))
          { status := 200, body := [("id", Json.str "p")] }
          (fun k => if k = 0 then { status := 500, body := [] }
                    else { status := 200, body := [("ok", Json.bool true)] })).calls =
        Call.create "Sarah\x27s Life Design Dashboard"
            ((List.replicate 250 (Json.str "b")).take 100) ::
          (slices100 ((List.replicate 250 (Json.str "b")).drop 100)).map
            (fun chunk => Call.append
              (([("id", Json.str "p")] : List (String × Json)).lookup "id") chunk))
    ∧ (appendArgs (generate_template_core (List.replicate 250 (Json.str "b"))
          { status := 200, body := [("id", Json.str "p")] }
          (fun k => if k = 0 then { status := 500, body := [] }
                    else { status := 200, body := [("ok", Json.bool true)] })).calls).length = 2 :=
  ⟨⟨rfl, by simp⟩,
   C3_append_failure_does_not_abort (List.replicate 250 (Json.str "b"))
     { status := 200, body := [("id", Json.str "p")] }
     (fun k => if k = 0 then { status := 500, body := [] }
               else { status := 200, body := [("ok", Json.bool true)] })
     ⟨rfl, by simp⟩,
   by rfl⟩

/-- C4: on a successful create, the job issues exactly one create call and
`(N - 100 + 99) / 100` append calls (natural-number arithmetic, which is
exactly `max 0 ⌈(N-100)/100⌉`); every append chunk has at most 100 items,
and the last chunk, when one exists, has `(N-100) mod 100` items, or `100`
when `N-100` is a nonzero multiple of 100.  In particular N = 100 gives one
create call and zero append calls. -/
theorem C4_append_call_counts (items : List Json) (cr : Response)
    (f : Nat → Response) (h : createOk cr) :
    (createArgs (generate_template_core items cr f).calls).length = 1
    ∧ (appendArgs (generate_template_core items cr f).calls).length
        = (items.length - 100 + 99) / 100
    ∧ (∀ c ∈ appendArgs (generate_template_core items cr f).calls, c.length ≤ 100)
    ∧ (∀ c, (appendArgs (generate_template_core items cr f).calls).getLast? = some c →
        c.length = if (items.length - 100) % 100 = 0 then 100
                   else (items.length - 100) % 100) := by
  rw [core_of_createOk items cr f h]
  rw [appendArgs_create_cons, createArgs_create_cons, slices100_eq_chunksRec]
  refine ⟨rfl, ?_, ?_, ?_⟩
  · rw [chunksRec_length, List.length_drop]
  · intro c hc
    exact chunksRec_mem_length hc
  · intro c hc
    have := chunksRec_getLast? hc
    rw [List.length_drop] at this
    exact this

set_option maxRecDepth 8000 in
/-- C4 witness: N = 100 (boundary: zero append calls) and N = 250 (two append
calls, last of size 50), both under a successful create reply. -/
theorem C4_witness :
    createOk { status := 200, body := [("id", Json.str "p")] }
    ∧ ((createArgs (generate_template_core (List.replicate 100 (Json.str "a"))
          { status := 200, body := [("id", Json.str "p")] }
          (fun _ => { status := 200, body := [("ok", Json.bool true)] })).calls).length = 1
       ∧ (appendArgs (generate_template_core (List.replicate 100 (Json.str "a"))
          { status := 200, body := [("id", Json.str "p")] }
          (fun _ => { status := 200, body := [("ok", Json.bool true)] })).calls).length
            = ((List.replicate 100 (Json.str "a")).length - 100 + 99) / 100
       ∧ (∀ c ∈ appendArgs (generate_template_core (List.replicate 100 (Json.str "a"))
          { status := 200, body := [("id", Json.str "p")] }
          (fun _ => { status := 200, body := [("ok", Json.bool true)] })).calls, c.length ≤ 100)
       ∧ (∀ c, (appendArgs (generate_template_core (List.replicate 100 (Json.str "a"))
          { status := 200, body := [("id", Json.str "p")] }
          (fun _ => { status := 200, body := [("ok", Json.bool true)] })).calls).getLast? = some c →
            c.length = if ((List.replicate 100 (Json.str "a")).length - 100) % 100 = 0 then 100
                       else ((List.replicate 100 (Json.str "a")).length - 100) % 100))
    ∧ (appendArgs (generate_template_core (List.replicate 250 (Json.str "a"))
          { status := 200, body := [("id", Json.str "p")] }
          (fun _ => { status := 200, body := [("ok", Json.bool true)] })).calls).map List.length = [100, 50] :=
  ⟨⟨rfl, by simp⟩,
   C4_append_call_counts (List.replicate 100 (Json.str "a"))
     { status := 200, body := [("id", Json.str "p")] }
     (fun _ => { status := 200, body := [("ok", Json.bool true)] })
     ⟨rfl, by simp⟩,
   by rfl⟩

/-- C5: on a successful create, concatenating the head slice passed to the
create call with all chunks passed to append calls, in call order, gives back
the input sequence exactly. -/
theorem C5_order_preserving_roundtrip (items : List Json) (cr : Response)
    (f : Nat → Response) (h : createOk cr) :
    (createArgs (generate_template_core items cr f).calls).flatten
      ++ (appendArgs (generate_template_core items cr f).calls).flatten = items := by
  rw [core_of_createOk items cr f h]
  rw [appendArgs_create_cons, createArgs_create_cons, slices100_eq_chunksRec]
  rw [List.flatten_cons, List.flatten_nil, List.append_nil, chunksRec_flatten]
  exact List.take_append_drop 100 items

/-- C5 witness: the round-trip at a concrete 250-item input. -/
theorem C5_witness :
    createOk { status := 200, body := [("id", Json.str "p")] }
    ∧ (createArgs (generate_template_core (List.replicate 250 (Json.str "c"))
          { status := 200, body := [("id", Json.str "p")] }
          (fun _ => { status := 200, body := [("ok", Json.bool true)] })).calls).flatten
        ++ (appendArgs (generate_template_core (List.replicate 250 (Json.str "c"))
          { status := 200, body := [("id", Json.str "p")] }
          (fun _ => { status := 200, body := [("ok", Json.bool true)] })).calls).flatten
        = List.replicate 250 (Json.str "c") :=
  ⟨⟨rfl, by simp⟩,
   C5_order_preserving_roundtrip (List.replicate 250 (Json.str "c"))
     { status := 200, body := [("id", Json.str "p")] }
     (fun _ => { status := 200, body := [("ok", Json.bool true)] })
     ⟨rfl, by simp⟩⟩

/-- C6: on the empty input sequence the job issues exactly one create call,
whose children argument is the empty list, and zero append calls — whatever
the replies are. -/
theorem C6_empty_input (cr : Response) (f : Nat → Response) :
    (generate_template_core [] cr f).calls =
      [Call.create "Sarah\x27s Life Design Dashboard" []] := by
  by_cases h : createOk cr
  · rw [core_of_createOk [] cr f h]
    simp [slices100_nil]
  · rw [core_of_createFail [] cr f ((not_createOk_iff cr).mp h)]
    rfl

/-- C7: every outbound payload carries at most 100 items in its `children`
field, for every input children list: `create_page` truncates with
`children[:100]` (source line 62) and `append_blocks` likewise
(source line 82). -/
theorem C7_payload_cap (g : Generator) (title : String)
    (children : Option (List Json)) (cs : List Json) :
    payload_child_count (create_page_payload g title children) ≤ 100
    ∧ payload_child_count (append_blocks_payload cs) ≤ 100 := by
  constructor
  · rcases children with _ | cs'
    · show (0 : Nat) ≤ 100
      decide
    · by_cases hcs : cs'.isEmpty
      · have h0 : cs' = [] := List.isEmpty_iff.mp hcs
        subst h0
        show (0 : Nat) ≤ 100
        decide
      · rw [Bool.not_eq_true] at hcs
        have hpc : create_page_payload g title (some cs')
            = create_page_payload g title none ++ [("children", Json.arr (cs'.take 100))] := by
          simp [create_page_payload, hcs]
        rw [hpc]
        show (cs'.take 100).length ≤ 100
        exact List.length_take_le 100 cs'
  · exact List.length_take_le 100 cs

/-- C8: the content assembler is pure data construction — it reads nothing
from the generator state (no credential, no parent page id, no call results),
so any two invocations produce the same ordered block sequence. -/
theorem C8_assembler_deterministic (g1 g2 : Generator) :
    build_complete_template g1 = build_complete_template g2 := rfl

/-- C9: when `children` is `None` or the empty list, the `create_page`
payload omits the `children` field entirely (the truthiness test of source
line 61), so an absent head slice and an empty head slice produce the same
request. -/
theorem C9_children_field_omitted (g : Generator) (title : String) :
    create_page_payload g title none = create_page_payload g title (some [])
    ∧ (create_page_payload g title none).lookup "children" = none := by
  exact ⟨rfl, rfl⟩

/-- C10: on a children list longer than 100, both payload builders silently
keep only the first 100 items: the request is identical to the one for the
truncated list, the payload carries exactly 100 items, and nothing about the
call results (which depend only on the HTTP reply, source lines 64-68 and
84-88) records the truncation. -/
theorem C10_silent_truncation (g : Generator) (title : String)
    (children : List Json) (h : 100 < children.length) :
    append_blocks_payload children = append_blocks_payload (children.take 100)
    ∧ payload_child_count (append_blocks_payload children) = 100
    ∧ create_page_payload g title (some children)
        = create_page_payload g title (some (children.take 100))
    ∧ payload_child_count (create_page_payload g title (some children)) = 100 := by
  have hne : children ≠ [] := by
    intro hx
    rw [hx] at h
    exact absurd h (by decide)
  have hne' : children.take 100 ≠ [] := by
    intro hx
    have h0 : (children.take 100).length = 0 := by rw [hx]; rfl
    rw [List.length_take] at h0
    omega
  have htt : (children.take 100).take 100 = children.take 100 := by
    rw [List.take_take]
    simp
  have hlen : (children.take 100).length = 100 := by
    rw [List.length_take]
    omega
  have key : ∀ cs : List Json, cs.isEmpty = false →
      create_page_payload g title (some cs)
        = create_page_payload g title none ++ [("children", Json.arr (cs.take 100))] := by
    intro cs h0
    simp [create_page_payload, h0]
  refine ⟨?_, ?_, ?_, ?_⟩
  · unfold append_blocks_payload
    rw [htt]
  · show (children.take 100).length = 100
    exact hlen
  · rw [key children (List.isEmpty_eq_false.mpr hne),
        key (children.take 100) (List.isEmpty_eq_false.mpr hne'), htt]
  · rw [key children (List.isEmpty_eq_false.mpr hne)]
    show (children.take 100).length = 100
    exact hlen

/-- C10 witness: a concrete 101-item children list. -/
theorem C10_witness :
    100 < (List.replicate 101 (Json.str "b")).length
    ∧ (append_blocks_payload (List.replicate 101 (Json.str "b"))
        = append_blocks_payload ((List.replicate 101 (Json.str "b")).take 100)
       ∧ payload_child_count (append_blocks_payload (List.replicate 101 (Json.str "b"))) = 100
       ∧ create_page_payload { api_key := "k", parent_page_id := "pp" } "T"
            (some (List.replicate 101 (Json.str "b")))
          = create_page_payload { api_key := "k", parent_page_id := "pp" } "T"
            (some ((List.replicate 101 (Json.str "b")).take 100))
       ∧ payload_child_count (create_page_payload { api_key := "k", parent_page_id := "pp" } "T"
            (some (List.replicate 101 (Json.str "b")))) = 100) :=
  ⟨by simp,
   C10_silent_truncation { api_key := "k", parent_page_id := "pp" } "T"
     (List.replicate 101 (Json.str "b")) (by simp)⟩

end NotionGen
